import Mathlib

/-!
Verification of the KPI aggregation and reporting engine of the `crm-core`
repository (`apps/kpis`): period-window computation, the `KPIReport`
approval state machine, aggregation of approved reports into canonical
`KPIEntry` rows, and trend-analysis statistics.

Python `datetime.date` values are modelled by the `Date` structure below
(proleptic Gregorian calendar, as in CPython's `datetime` module), decimal
and float quantities by `ℚ`, Django querysets by lists of rows, and the
`update_or_create` upsert by an explicit list transformation.
-/

namespace CrmCore

/-- Model of Python `datetime.date`: year, month, day fields. -/
structure Date where
  year : Int
  month : Int
  day : Int
  deriving DecidableEq, Repr

/-- CPython `calendar.isleap` / `datetime._is_leap`:
`year % 4 == 0 and (year % 100 != 0 or year % 400 == 0)`. -/
def isLeapYear (y : Int) : Bool :=
  y % 4 == 0 && (y % 100 != 0 || y % 400 == 0)

/-- CPython `datetime._days_in_month` (table `_DAYS_IN_MONTH`). -/
def daysInMonth (y m : Int) : Int :=
  if m = 2 then (if isLeapYear y then 29 else 28)
  else if m = 4 ∨ m = 6 ∨ m = 9 ∨ m = 11 then 30
  else 31

/-- A structurally valid date: month in 1..12, day in 1..days-in-month. -/
def Date.Valid (d : Date) : Prop :=
  1 ≤ d.month ∧ d.month ≤ 12 ∧ 1 ≤ d.day ∧ d.day ≤ daysInMonth d.year d.month

instance (d : Date) : Decidable d.Valid := by
  unfold Date.Valid; infer_instance

/-- The previous calendar day (what `d - timedelta(days=1)` computes). -/
def predDate (d : Date) : Date :=
  if 1 < d.day then ⟨d.year, d.month, d.day - 1⟩
  else if 1 < d.month then ⟨d.year, d.month - 1, daysInMonth d.year (d.month - 1)⟩
  else ⟨d.year - 1, 12, 31⟩

/-- The next calendar day (what `d + timedelta(days=1)` computes). -/
def succDate (d : Date) : Date :=
  if d.day < daysInMonth d.year d.month then ⟨d.year, d.month, d.day + 1⟩
  else if d.month < 12 then ⟨d.year, d.month + 1, 1⟩
  else ⟨d.year + 1, 1, 1⟩

/-- Python `d - timedelta(days=k)` for `k ≥ 0`. -/
def dateSubDays (d : Date) (k : Nat) : Date := predDate^[k] d

/-- Python `d + timedelta(days=k)` for `k ≥ 0`. -/
def dateAddDays (d : Date) (k : Nat) : Date := succDate^[k] d

/-- Days in months `1..m-1` of year `y` (CPython `_days_before_month`),
with the month given as a natural number. -/
def daysBeforeMonthNat (y : Int) : Nat → Int
  | 0 => 0
  | 1 => 0
  | n + 2 => daysBeforeMonthNat y (n + 1) + daysInMonth y (n + 1 : Nat)

/-- CPython `_days_before_month y m`. -/
def daysBeforeMonth (y m : Int) : Int := daysBeforeMonthNat y m.toNat

/-- CPython `_days_before_year`: days before January 1st of year `y`. -/
def daysBeforeYear (y : Int) : Int :=
  365 * (y - 1) + (y - 1).fdiv 4 - (y - 1).fdiv 100 + (y - 1).fdiv 400

/-- CPython `date.toordinal` (`_ymd2ord`): 0001-01-01 has ordinal 1. -/
def Date.toordinal (d : Date) : Int :=
  daysBeforeYear d.year + daysBeforeMonth d.year d.month + d.day

/-- CPython `date.weekday()`: Monday is 0, Sunday is 6. -/
def Date.weekday (d : Date) : Int := (d.toordinal + 6) % 7

/-- Linear key realising chronological order on structurally valid dates
(lexicographic on year, month, day; months fit in 32, days in 32). -/
def Date.key (d : Date) : Int := 512 * d.year + 32 * d.month + d.day

/-- Chronological order on dates, as compared by Python `date.__le__`. -/
def Date.le (d e : Date) : Prop := d.key ≤ e.key

instance (d e : Date) : Decidable (Date.le d e) := by
  unfold Date.le; infer_instance

/-- Python `date.replace(day=k)`. -/
def Date.replaceDay (d : Date) (k : Int) : Date := ⟨d.year, d.month, k⟩

/-- Python `date.replace(month=m)`. -/
def Date.replaceMonth (d : Date) (m : Int) : Date := ⟨d.year, m, d.day⟩

/-- Python `date.replace(month=m, day=k)`. -/
def Date.replaceMonthDay (d : Date) (m k : Int) : Date := ⟨d.year, m, k⟩

/-- Python `date.replace(year=y, month=m)`. -/
def Date.replaceYearMonth (d : Date) (y m : Int) : Date := ⟨y, m, d.day⟩

/-- `apps/kpis/services.py::get_period_dates` — start and end dates of the
KPI period containing `reference_date`, by period type string. The
`views.py::UserKPIsView._get_period_dates` helper is a verbatim copy of the
same branch structure. -/
def get_period_dates (kpi_period : String) (reference_date : Date) : Date × Date :=
  if kpi_period = "daily" then
    (reference_date, reference_date)
  else if kpi_period = "weekly" then
    let start := dateSubDays reference_date reference_date.weekday.toNat
    (start, dateAddDays start 6)
  else if kpi_period = "monthly" then
    let start := reference_date.replaceDay 1
    if start.month = 12 then
      (start, predDate (start.replaceYearMonth (start.year + 1) 1))
    else
      (start, predDate (start.replaceMonth (start.month + 1)))
  else if kpi_period = "quarterly" then
    let quarter := (reference_date.month - 1) / 3
    let start_month := quarter * 3 + 1
    let start := reference_date.replaceMonthDay start_month 1
    if start_month = 10 then
      (start, predDate (start.replaceYearMonth (start.year + 1) 1))
    else
      (start, predDate (start.replaceMonth (start_month + 3)))
  else
    (reference_date.replaceMonthDay 1 1, reference_date.replaceMonthDay 12 31)


/-! ### Data model (`apps/kpis/models.py`)

Rows carry the fields the aggregation and workflow code reads or writes.
Primary keys are `Nat`, users are identified by their e-mail string (the
aggregation code reads `reported_by__email`), decimal/float quantities are
`ℚ`, and `timezone.now()` timestamps are opaque `Nat` instants. Display-only
fields (auto timestamps, help texts) are not modelled. -/

/-- `models.py::KPI` — the fields read by the aggregation services. -/
structure KPI where
  id : Nat
  name : String
  source_type : String
  period : String
  is_active : Bool
  aggregate_query : String
  deriving DecidableEq, Repr

/-- `models.py::KPIReport` — one user's claimed value for one assignment
and one exact period. -/
structure KPIReport where
  id : Nat
  kpi : Nat
  assignment : Nat
  period_start : Date
  period_end : Date
  reported_value : ℚ
  notes : String
  status : String
  reported_by : String
  approved_by : Option String
  approval_notes : String
  submitted_at : Option Nat
  reviewed_at : Option Nat
  deriving DecidableEq, Repr

/-- `models.py::KPIReport.submit` — submit the report for review; the
entire body is guarded by `if self.status == 'draft'`. -/
def KPIReport.submit (r : KPIReport) (now : Nat) : KPIReport :=
  if r.status = "draft" then
    { r with status := "submitted", submitted_at := some now }
  else r

/-- `models.py::KPIReport.approve` — approve the report; the entire body is
guarded by `if self.status == 'submitted'`. (The aggregation trigger fired
after approval lives in the view / background task, modelled below.) -/
def KPIReport.approve (r : KPIReport) (supervisor : String) (notes : String)
    (now : Nat) : KPIReport :=
  if r.status = "submitted" then
    { r with status := "approved", approved_by := some supervisor,
             approval_notes := notes, reviewed_at := some now }
  else r

/-- `models.py::KPIReport.reject` — reject the report; same guard. -/
def KPIReport.reject (r : KPIReport) (supervisor : String) (notes : String)
    (now : Nat) : KPIReport :=
  if r.status = "submitted" then
    { r with status := "rejected", approved_by := some supervisor,
             approval_notes := notes, reviewed_at := some now }
  else r

/-- The JSON `metadata` blob written on `KPIEntry`: the manual aggregation
path writes `source/aggregation_method/reports_count/reported_by`; the
system path writes `source/aggregate_query`. -/
structure EntryMetadata where
  source : String
  aggregation_method : Option String
  reports_count : Option Nat
  reported_by : Option (List String)
  aggregate_query : Option String
  deriving DecidableEq, Repr

/-- `models.py::KPIEntry` — canonical aggregated value for one KPI and one
exact period; `unique_together [kpi, period_start, period_end]`. -/
structure KPIEntry where
  kpi : Nat
  period_start : Date
  period_end : Date
  value : ℚ
  is_calculated : Bool
  entered_by : Option String
  notes : String
  metadata : EntryMetadata
  deriving DecidableEq, Repr

/-- The `defaults={...}` dictionary passed to
`KPIEntry.objects.update_or_create`. -/
structure EntryDefaults where
  value : ℚ
  is_calculated : Bool
  entered_by : Option String
  notes : String
  metadata : EntryMetadata
  deriving DecidableEq, Repr

/-- Row matches the upsert key `(kpi, period_start, period_end)`. -/
def entryMatches (k : Nat) (ps pe : Date) (e : KPIEntry) : Bool :=
  decide (e.kpi = k ∧ e.period_start = ps ∧ e.period_end = pe)

/-- Overwrite the non-key fields of a row with the `defaults` dictionary
(Django `update_or_create` update branch). -/
def applyDefaults (e : KPIEntry) (d : EntryDefaults) : KPIEntry :=
  { e with value := d.value, is_calculated := d.is_calculated,
           entered_by := d.entered_by, notes := d.notes, metadata := d.metadata }

/-- The row `update_or_create` produces for key `(k, ps, pe)` and the given
defaults (every non-key column of `KPIEntry` appears in `defaults`). -/
def mkEntry (k : Nat) (ps pe : Date) (d : EntryDefaults) : KPIEntry :=
  ⟨k, ps, pe, d.value, d.is_calculated, d.entered_by, d.notes, d.metadata⟩

/-- Django `KPIEntry.objects.update_or_create(kpi=…, period_start=…,
period_end=…, defaults=…)` over an explicit table of rows: update the
matching row if one exists, otherwise insert a new row. Returns the new
table, the row, and the `created` flag. -/
def update_or_create (entries : List KPIEntry) (k : Nat) (ps pe : Date)
    (d : EntryDefaults) : List KPIEntry × KPIEntry × Bool :=
  if entries.any (entryMatches k ps pe) then
    (entries.map (fun e => if entryMatches k ps pe e then applyDefaults e d else e),
     mkEntry k ps pe d, false)
  else
    (entries ++ [mkEntry k ps pe d], mkEntry k ps pe d, true)

/-! ### Aggregation services (`apps/kpis/services.py`) -/

/-- The queryset
`KPIReport.objects.filter(kpi=kpi, status='approved', period_start=period_start,
period_end=period_end)` of `create_kpi_entry_from_approved_reports`: exact
period-bound equality, approved status only. -/
def approvedReportsFor (reports : List KPIReport) (kpi : KPI) (ps pe : Date) :
    List KPIReport :=
  reports.filter (fun r =>
    decide (r.kpi = kpi.id ∧ r.status = "approved" ∧
            r.period_start = ps ∧ r.period_end = pe))

/-- `Sum('reported_value')` over a queryset. -/
def sumValues (l : List KPIReport) : ℚ := (l.map (fun r => r.reported_value)).sum

/-- `.values_list('reported_by__email', flat=True).distinct()` — distinct
reporter e-mails, first occurrence kept. -/
def distinctEmails : List KPIReport → List String
  | [] => []
  | r :: rs =>
      let rest := distinctEmails rs
      if r.reported_by ∈ rest then rest else r.reported_by :: rest

/-- `services.py::create_kpi_entry_from_approved_reports` — aggregate the
approved reports with exactly matching period bounds and upsert the
`KPIEntry`; returns the updated entries table and the entry (`none` when no
approved reports exist). -/
def create_kpi_entry_from_approved_reports (reports : List KPIReport)
    (entries : List KPIEntry) (kpi : KPI) (period_start period_end : Date)
    (aggregation_method : String) : List KPIEntry × Option KPIEntry :=
  let approved_reports := approvedReportsFor reports kpi period_start period_end
  if approved_reports.isEmpty then (entries, none)
  else
    let n := approved_reports.length
    let aggregated_value : Option ℚ :=
      if aggregation_method = "sum" then some (sumValues approved_reports)
      else if aggregation_method = "count" then some (n : ℚ)
      else some (sumValues approved_reports / (n : ℚ))
    let notes :=
      if aggregation_method = "sum" then
        "Aggregated sum from " ++ toString n ++ " approved report(s)"
      else if aggregation_method = "count" then
        "Aggregated count from " ++ toString n ++ " approved report(s)"
      else
        "Aggregated average from " ++ toString n ++ " approved report(s)"
    match aggregated_value with
    | none => (entries, none)
    | some v =>
        let reporting_users := distinctEmails approved_reports
        let notes := notes ++ " by: " ++ String.intercalate ", " reporting_users
        let d : EntryDefaults :=
          { value := v, is_calculated := false, entered_by := none,
            notes := notes,
            metadata :=
              { source := "aggregated_reports",
                aggregation_method := some aggregation_method,
                reports_count := some n,
                reported_by := some reporting_users,
                aggregate_query := none } }
        let r := update_or_create entries kpi.id period_start period_end d
        (r.1, some r.2.1)

/-- `services.py::process_kpi_aggregation_for_period` — compute the period
from the KPI's period type then run the manual path when
`source_type == 'manual'`; otherwise return `None` (no error). -/
def process_kpi_aggregation_for_period (reports : List KPIReport)
    (entries : List KPIEntry) (kpi : KPI) (reference_date : Date)
    (aggregation_method : String) : List KPIEntry × Option KPIEntry :=
  let pp := get_period_dates kpi.period reference_date
  if kpi.source_type = "manual" then
    create_kpi_entry_from_approved_reports reports entries kpi pp.1 pp.2
      aggregation_method
  else
    (entries, none)

/-- `services.py::process_system_aggregate_kpi` — upsert a system-computed
value; raises `ValueError` (modelled as `Except.error`) when the KPI is not
an aggregate-type KPI. -/
def process_system_aggregate_kpi (entries : List KPIEntry) (kpi : KPI)
    (period_start period_end : Date) (aggregate_value : ℚ) :
    Except String (List KPIEntry × KPIEntry) :=
  if kpi.source_type ≠ "aggregate" then
    Except.error ("KPI " ++ kpi.name ++ " is not an aggregate type KPI")
  else
    let d : EntryDefaults :=
      { value := aggregate_value, is_calculated := true, entered_by := none,
        notes := "System-calculated aggregate value",
        metadata :=
          { source := "system_aggregate", aggregation_method := none,
            reports_count := none, reported_by := none,
            aggregate_query := some kpi.aggregate_query } }
    let r := update_or_create entries kpi.id period_start period_end d
    Except.ok (r.1, r.2.1)

/-- One error record of the batch summary:
`{'kpi_id': …, 'kpi_name': …, 'error': …}`. -/
structure BatchError where
  kpi_id : Nat
  kpi_name : String
  error : String
  deriving DecidableEq, Repr

/-- The batch summary dictionary
`{'processed', 'created', 'updated', 'skipped', 'errors'}`. -/
structure BatchSummary where
  processed : Nat
  created : Nat
  updated : Nat
  skipped : Nat
  errors : List BatchError
  deriving DecidableEq, Repr

/-- One iteration of the `for kpi in active_kpis` loop body of
`process_all_kpis_for_period`, including its `try/except`. The persistence
layer may raise while a KPI is processed; `exc kpi = some msg` models an
exception with text `msg` escaping the `try` block for that KPI (in which
case no write happens), `exc kpi = none` models normal execution. -/
def processOneKpiStep (reports : List KPIReport) (reference_date : Date)
    (aggregation_method : String) (exc : KPI → Option String)
    (st : List KPIEntry × BatchSummary) (kpi : KPI) :
    List KPIEntry × BatchSummary :=
  let entries := st.1
  let results := st.2
  match exc kpi with
  | some e =>
      (entries,
       { results with
           errors := results.errors ++ [⟨kpi.id, kpi.name, e⟩],
           skipped := results.skipped + 1 })
  | none =>
      let pp := get_period_dates kpi.period reference_date
      let existing_entry := entries.any (entryMatches kpi.id pp.1 pp.2)
      let r := create_kpi_entry_from_approved_reports reports entries
        kpi pp.1 pp.2 aggregation_method
      match r.2 with
      | some _ =>
          if existing_entry then
            (r.1, { results with processed := results.processed + 1,
                                 updated := results.updated + 1 })
          else
            (r.1, { results with processed := results.processed + 1,
                                 created := results.created + 1 })
      | none =>
          (r.1, { results with skipped := results.skipped + 1 })

/-- `services.py::process_all_kpis_for_period` — reconciliation batch over
every active manual-source KPI (`KPI.objects.filter(is_active=True,
source_type='manual')`), accumulating the summary without aborting on a
single KPI's exception. -/
def process_all_kpis_for_period (kpis : List KPI) (reports : List KPIReport)
    (entries : List KPIEntry) (reference_date : Date)
    (aggregation_method : String) (exc : KPI → Option String) :
    List KPIEntry × BatchSummary :=
  let active_kpis := kpis.filter (fun k => k.is_active && k.source_type == "manual")
  active_kpis.foldl (processOneKpiStep reports reference_date aggregation_method exc)
    (entries, ⟨0, 0, 0, 0, []⟩)

/-! ### Background task (`apps/kpis/tasks.py`) -/

/-- The dictionary returned by `trigger_kpi_aggregation_after_approval`. -/
structure TriggerResult where
  success : Bool
  value : Option ℚ
  message : Option String
  error : Option String
  deriving DecidableEq, Repr

/-- `tasks.py::trigger_kpi_aggregation_after_approval` — aggregation fired
after a report approval. Looks the KPI up, runs the manual path, and
reports `{'success': False, 'message': 'No approved reports found'}` when
no entry was produced; exceptions (here: the unknown-KPI lookup) are caught
and reported as `{'success': False, 'error': …}`, never raised. -/
def trigger_kpi_aggregation_after_approval (kpis : List KPI)
    (reports : List KPIReport) (entries : List KPIEntry) (kpi_id : Nat)
    (period_start period_end : Date) (aggregation_method : String) :
    List KPIEntry × TriggerResult :=
  match kpis.find? (fun k => k.id == kpi_id) with
  | none =>
      (entries, { success := false, value := none, message := none,
                  error := some "KPI matching query does not exist." })
  | some kpi =>
      let r := create_kpi_entry_from_approved_reports reports entries
        kpi period_start period_end aggregation_method
      match r.2 with
      | some e =>
          (r.1, { success := true, value := some e.value, message := none,
                  error := none })
      | none =>
          (r.1, { success := false, value := none,
                  message := some "No approved reports found", error := none })

/-! ### Report workflow views (`apps/kpis/views.py`) -/

/-- Outcome of a report-workflow HTTP endpoint: the serialized report on
success, or an HTTP 400/403 error body. -/
inductive ApiResponse where
  | ok (report : KPIReport)
  | badRequest (message : String)
  | forbidden (message : String)
  deriving DecidableEq, Repr

/-- `views.py::KPIReportSubmitView.post` — only the reporter may submit,
and only a draft report can be submitted; returns the response and the
(possibly updated) report row. -/
def KPIReportSubmitView_post (report : KPIReport) (user : String) (now : Nat) :
    ApiResponse × KPIReport :=
  if report.reported_by ≠ user then
    (ApiResponse.forbidden "You can only submit your own reports.", report)
  else if report.status ≠ "draft" then
    (ApiResponse.badRequest "Only draft reports can be submitted.", report)
  else
    let r := report.submit now
    (ApiResponse.ok r, r)

/-- `views.py::KPIReportApproveView.post` — supervisor check, then the
`status == 'submitted'` guard, then dispatch on `action`. The asynchronous
aggregation trigger fired on approval is modelled separately by
`trigger_kpi_aggregation_after_approval`; its failure never fails the
approval (the view catches and logs). -/
def KPIReportApproveView_post (report : KPIReport) (is_supervisor : Bool)
    (user : String) (action : Option String) (notes : String) (now : Nat) :
    ApiResponse × KPIReport :=
  if !is_supervisor then
    (ApiResponse.forbidden "Only supervisors can approve/reject reports.", report)
  else if report.status ≠ "submitted" then
    (ApiResponse.badRequest "Only submitted reports can be approved/rejected.", report)
  else
    match action with
    | some "approve" =>
        let r := report.approve user notes now
        (ApiResponse.ok r, r)
    | some "reject" =>
        let r := report.reject user notes now
        (ApiResponse.ok r, r)
    | _ => (ApiResponse.badRequest "Action must be \x22approve\x22 or \x22reject\x22.", report)

/-! ### Trend analysis (`apps/kpis/services.py`) -/

/-- `services.py::calculate_percentage_change` — percentage change between
the current value and the (possibly absent) previous value, with the
zero-edge policy of the source. -/
def calculate_percentage_change (current_value : ℚ) (previous_value : Option ℚ) :
    Option ℚ :=
  match previous_value with
  | none => none
  | some prev =>
      if prev = 0 then
        if current_value = 0 then some 0 else some 100
      else if current_value = 0 ∧ prev ≠ 0 then some (-100)
      else some ((current_value - prev) / prev * 100)

/-- Floor of a rational. -/
def ratFloor (x : ℚ) : Int := ⌊x⌋

/-- Python `round` to the nearest integer, ties to even (banker's
rounding), on the exact rational value. -/
def roundHalfToEven (x : ℚ) : Int :=
  let f := ratFloor x
  let r := x - (f : ℚ)
  if r < 1 / 2 then f
  else if 1 / 2 < r then f + 1
  else if f % 2 = 0 then f else f + 1

/-- Python `round(x, 2)`. -/
def pyRound2 (x : ℚ) : ℚ := (roundHalfToEven (x * 100) : ℚ) / 100

/-- One element of the `trend_data` list built by
`get_kpi_trend_analysis` (the display-only `period_label` / `created_at`
strings are not modelled). -/
structure TrendItem where
  period_start : Date
  period_end : Date
  value : ℚ
  percentage_change : Option ℚ
  is_increase : Option Bool
  deriving DecidableEq, Repr

/-- The `for entry in entries` loop of `get_kpi_trend_analysis`: annotate
each entry with the percentage change from the running `previous_value`
(initially `None`). -/
def buildTrendData : List KPIEntry → Option ℚ → List TrendItem
  | [], _ => []
  | e :: rest, previous_value =>
      let percentage_change := calculate_percentage_change e.value previous_value
      { period_start := e.period_start, period_end := e.period_end,
        value := e.value,
        percentage_change := percentage_change.map pyRound2,
        is_increase := percentage_change.map (fun c => decide (0 < c)) }
        :: buildTrendData rest (some e.value)

/-- The statistics dictionary of `calculate_trend_statistics`. -/
structure TrendStatistics where
  total_periods : Nat
  current_value : Option ℚ
  first_value : Option ℚ
  average_value : Option ℚ
  min_value : Option ℚ
  max_value : Option ℚ
  overall_change_percentage : Option ℚ
  trend_direction : Option String
  deriving DecidableEq, Repr

/-- `services.py::calculate_trend_statistics` — summary statistics over a
trend-data list; empty input yields the all-null dictionary. -/
def calculate_trend_statistics (trend_data : List TrendItem) : TrendStatistics :=
  match trend_data with
  | [] =>
      { total_periods := 0, current_value := none, first_value := none,
        average_value := none, min_value := none, max_value := none,
        overall_change_percentage := none, trend_direction := none }
  | t :: ts =>
      let values := (t :: ts).map (fun item => item.value)
      let current_value := values.getLastD 0
      let first_value := t.value
      let overall_change := calculate_percentage_change current_value (some first_value)
      let average_value := values.sum / (values.length : ℚ)
      let min_value := ts.foldl (fun a b => min a b.value) t.value
      let max_value := ts.foldl (fun a b => max a b.value) t.value
      let trend_direction : Option String :=
        match overall_change with
        | none => none
        | some c => if 0 < c then some "increasing"
                    else if c < 0 then some "decreasing"
                    else some "stable"
      { total_periods := (t :: ts).length,
        current_value := some current_value,
        first_value := some first_value,
        average_value := some (pyRound2 average_value),
        min_value := some min_value,
        max_value := some max_value,
        overall_change_percentage := overall_change.map pyRound2,
        trend_direction := trend_direction }

/-- The `kpi.entries.all().order_by('period_start')` queryset: the entry
rows sorted ascending by `period_start`. -/
def orderByPeriodStart (entries : List KPIEntry) : List KPIEntry :=
  entries.insertionSort (fun a b => a.period_start.key ≤ b.period_start.key)

/-- Result of `get_kpi_trend_analysis` (the display-only `kpi` info block
is not modelled). -/
structure TrendAnalysis where
  statistics : TrendStatistics
  trends : List TrendItem
  deriving DecidableEq, Repr

/-- `services.py::get_kpi_trend_analysis` — annotate the KPI's entry
history with percentage changes, truncate to the trailing `periods_count`
entries when `periods_count > 0`, and compute the summary statistics over
the truncated slice. -/
def get_kpi_trend_analysis (entries : List KPIEntry) (periods_count : Int) :
    TrendAnalysis :=
  let ordered := orderByPeriodStart entries
  let trend_data := buildTrendData ordered none
  let trend_data :=
    if 0 < periods_count then
      trend_data.drop (trend_data.length - periods_count.toNat)
    else trend_data
  { statistics := calculate_trend_statistics trend_data, trends := trend_data }

/-! ### Derived abbreviations (repackaging of the definitions above, used
to state and prove the theorems; not themselves source translations) -/

/-- The aggregated value `create_kpi_entry_from_approved_reports` computes
for a method string and a non-empty selected-report list. -/
def aggValue (m : String) (sel : List KPIReport) : ℚ :=
  if m = "sum" then sumValues sel
  else if m = "count" then (sel.length : ℚ)
  else sumValues sel / (sel.length : ℚ)

/-- The `notes` string `create_kpi_entry_from_approved_reports` builds. -/
def aggNotes (m : String) (sel : List KPIReport) : String :=
  (if m = "sum" then
    "Aggregated sum from " ++ toString sel.length ++ " approved report(s)"
   else if m = "count" then
    "Aggregated count from " ++ toString sel.length ++ " approved report(s)"
   else
    "Aggregated average from " ++ toString sel.length ++ " approved report(s)")
  ++ " by: " ++ String.intercalate ", " (distinctEmails sel)

/-- The `defaults` dictionary `create_kpi_entry_from_approved_reports`
passes to the upsert. -/
def aggDefaults (m : String) (sel : List KPIReport) : EntryDefaults :=
  { value := aggValue m sel, is_calculated := false, entered_by := none,
    notes := aggNotes m sel,
    metadata :=
      { source := "aggregated_reports", aggregation_method := some m,
        reports_count := some sel.length,
        reported_by := some (distinctEmails sel), aggregate_query := none } }

/-! ### Concrete fixtures for the example scenarios -/

/-- A manual monthly KPI used by the concrete scenarios. -/
def fixtureKpi : KPI := ⟨1, "Sales Volume", "manual", "monthly", true, ""⟩

/-- An approved March-2024 report for `fixtureKpi`. -/
def fixtureReport (i : Nat) (v : ℚ) (email : String) : KPIReport :=
  ⟨i, 1, i, ⟨2024, 3, 1⟩, ⟨2024, 3, 31⟩, v, "", "approved", email, none, "", none, none⟩

/-- Three approved reports with values 10, 20, 30 (scenario 3 of the spec). -/
def fixtureReports : List KPIReport :=
  [fixtureReport 1 10 "alice@crm.io", fixtureReport 2 20 "bob@crm.io",
   fixtureReport 3 30 "carol@crm.io"]

/-- A draft report with reported value 42 for (2024-03-01, 2024-03-31)
(scenario 4 of the spec). -/
def fixtureDraftReport : KPIReport :=
  ⟨9, 1, 9, ⟨2024, 3, 1⟩, ⟨2024, 3, 31⟩, 42, "", "draft", "dave@crm.io",
   none, "", none, none⟩

/-- An entry row for trend scenarios: `fixtureEntry month value`. -/
def fixtureEntry (m : Int) (v : ℚ) : KPIEntry :=
  ⟨1, ⟨2024, m, 1⟩, ⟨2024, m, 28⟩, v, false, none, "",
   ⟨"aggregated_reports", none, none, none, none⟩⟩

/-- Entry history with values [10, 0, 5] (scenario 5 of the spec). -/
def fixtureTrendEntries : List KPIEntry :=
  [fixtureEntry 1 10, fixtureEntry 2 0, fixtureEntry 3 5]

/-- An aggregate-type KPI (for the source-type guard scenarios). -/
def fixtureAggregateKpi : KPI :=
  ⟨2, "Tickets Closed", "aggregate", "monthly", true, "tickets.closed"⟩

/-! ### Calendar lemmas -/

theorem daysInMonth_bounds (y m : Int) :
    28 ≤ daysInMonth y m ∧ daysInMonth y m ≤ 31 := by
  unfold daysInMonth
  split_ifs <;> omega

theorem predDate_valid {d : Date} (h : d.Valid) : (predDate d).Valid := by
  obtain ⟨y, m, dy⟩ := d
  obtain ⟨h1, h2, h3, h4⟩ := h
  have hb := daysInMonth_bounds y (m - 1)
  have h31 : daysInMonth (y - 1) 12 = 31 := by unfold daysInMonth; norm_num
  unfold predDate
  dsimp only at *
  split_ifs <;> unfold Date.Valid <;> dsimp only <;> omega

theorem succDate_valid {d : Date} (h : d.Valid) : (succDate d).Valid := by
  obtain ⟨y, m, dy⟩ := d
  obtain ⟨h1, h2, h3, h4⟩ := h
  have hb := daysInMonth_bounds y (m + 1)
  have hb2 := daysInMonth_bounds (y + 1) 1
  unfold succDate
  dsimp only at *
  split_ifs <;> unfold Date.Valid <;> dsimp only <;> omega

theorem succDate_predDate {d : Date} (h : d.Valid) : succDate (predDate d) = d := by
  obtain ⟨y, m, dy⟩ := d
  obtain ⟨h1, h2, h3, h4⟩ := h
  have hb := daysInMonth_bounds y (m - 1)
  have h31 : daysInMonth (y - 1) 12 = 31 := by unfold daysInMonth; norm_num
  unfold predDate succDate
  dsimp only at *
  split_ifs <;> dsimp only at * <;> simp only [Date.mk.injEq, true_and, and_true] <;> omega

theorem predDate_key_lt {d : Date} (h : d.Valid) : (predDate d).key < d.key := by
  obtain ⟨y, m, dy⟩ := d
  obtain ⟨h1, h2, h3, h4⟩ := h
  have hb := daysInMonth_bounds y (m - 1)
  unfold predDate Date.key
  dsimp only at *
  split_ifs <;> dsimp only <;> omega

theorem succDate_key_lt {d : Date} (h : d.Valid) : d.key < (succDate d).key := by
  obtain ⟨y, m, dy⟩ := d
  obtain ⟨h1, h2, h3, h4⟩ := h
  have hb := daysInMonth_bounds y m
  unfold succDate Date.key
  dsimp only at *
  split_ifs <;> dsimp only <;> omega

theorem iterate_predDate_valid {d : Date} (h : d.Valid) (k : Nat) :
    (predDate^[k] d).Valid := by
  induction k with
  | zero => simpa using h
  | succ n ih =>
      rw [Function.iterate_succ_apply']
      exact predDate_valid ih

theorem dateSubDays_key_le {d : Date} (h : d.Valid) (k : Nat) :
    (dateSubDays d k).key ≤ d.key := by
  unfold dateSubDays
  induction k with
  | zero => simp
  | succ n ih =>
      rw [Function.iterate_succ_apply']
      exact le_trans (le_of_lt (predDate_key_lt (iterate_predDate_valid h n))) ih

theorem dateAddDays_key_le {d : Date} (h : d.Valid) (k : Nat) :
    d.key ≤ (dateAddDays d k).key := by
  unfold dateAddDays
  induction k with
  | zero => simp
  | succ n ih =>
      rw [Function.iterate_succ_apply']
      have hv : (succDate^[n] d).Valid := by
        clear ih
        induction n with
        | zero => simpa using h
        | succ m ihm =>
            rw [Function.iterate_succ_apply']
            exact succDate_valid ihm
      exact le_trans ih (le_of_lt (succDate_key_lt hv))

theorem dateAddDays_dateSubDays {d : Date} (h : d.Valid) (k : Nat) :
    dateAddDays (dateSubDays d k) k = d := by
  unfold dateAddDays dateSubDays
  induction k with
  | zero => simp
  | succ n ih =>
      rw [Function.iterate_succ_apply' (f := predDate),
        Function.iterate_succ_apply (f := succDate),
        succDate_predDate (iterate_predDate_valid h n)]
      exact ih

theorem weekday_nonneg (d : Date) : 0 ≤ d.weekday := by
  unfold Date.weekday
  exact Int.emod_nonneg _ (by norm_num)

theorem weekday_lt_seven (d : Date) : d.weekday < 7 := by
  unfold Date.weekday
  exact Int.emod_lt_of_pos _ (by norm_num)

/-! ### Upsert and aggregation lemmas -/

theorem entryMatches_mkEntry (k : Nat) (ps pe : Date) (d : EntryDefaults) :
    entryMatches k ps pe (mkEntry k ps pe d) = true := by
  simp [entryMatches, mkEntry]

theorem uoc_entry_eq (t : List KPIEntry) (k : Nat) (ps pe : Date)
    (d : EntryDefaults) :
    (update_or_create t k ps pe d).2.1 = mkEntry k ps pe d := by
  unfold update_or_create
  split_ifs <;> rfl

/-- On a non-empty selection, the manual path upserts exactly the
`aggDefaults` record and returns the produced row. -/
theorem create_spec (reports : List KPIReport) (entries : List KPIEntry)
    (kpi : KPI) (ps pe : Date) (m : String)
    (hne : approvedReportsFor reports kpi ps pe ≠ []) :
    create_kpi_entry_from_approved_reports reports entries kpi ps pe m =
      ((update_or_create entries kpi.id ps pe
          (aggDefaults m (approvedReportsFor reports kpi ps pe))).1,
       some (mkEntry kpi.id ps pe
          (aggDefaults m (approvedReportsFor reports kpi ps pe)))) := by
  unfold create_kpi_entry_from_approved_reports
  have hie : (approvedReportsFor reports kpi ps pe).isEmpty = false := by
    rcases hse : approvedReportsFor reports kpi ps pe with _ | ⟨a, l⟩
    · exact absurd hse hne
    · rfl
  dsimp only
  rw [hie]
  by_cases h1 : m = "sum"
  · simp [h1, aggDefaults, aggValue, aggNotes, uoc_entry_eq]
  · by_cases h2 : m = "count"
    · simp [h2, aggDefaults, aggValue, aggNotes, uoc_entry_eq]
    · simp [if_neg h1, if_neg h2, aggDefaults, aggValue, aggNotes, uoc_entry_eq]

/-- Empty selection: the manual path is a no-op. -/
theorem create_empty (reports : List KPIReport) (entries : List KPIEntry)
    (kpi : KPI) (ps pe : Date) (m : String)
    (he : approvedReportsFor reports kpi ps pe = []) :
    create_kpi_entry_from_approved_reports reports entries kpi ps pe m =
      (entries, none) := by
  unfold create_kpi_entry_from_approved_reports
  dsimp only
  rw [he]
  rfl

theorem entryMatches_applyDefaults (k : Nat) (ps pe : Date) (e : KPIEntry)
    (d : EntryDefaults) :
    entryMatches k ps pe (applyDefaults e d) = entryMatches k ps pe e := by
  simp [entryMatches, applyDefaults]

/-- Re-running the upsert with the same key and defaults changes nothing. -/
theorem update_or_create_idem (t : List KPIEntry) (k : Nat) (ps pe : Date)
    (d : EntryDefaults) :
    update_or_create (update_or_create t k ps pe d).1 k ps pe d =
      ((update_or_create t k ps pe d).1, mkEntry k ps pe d, false) := by
  unfold update_or_create
  by_cases h : t.any (entryMatches k ps pe)
  · rw [if_pos h]
    dsimp only
    have hany : (t.map (fun e => if entryMatches k ps pe e then applyDefaults e d else e)).any
        (entryMatches k ps pe) = true := by
      rw [List.any_map]
      rw [List.any_eq_true] at h ⊢
      obtain ⟨e, he, hm⟩ := h
      refine ⟨e, he, ?_⟩
      simp only [Function.comp]
      rw [if_pos hm, entryMatches_applyDefaults]
      exact hm
    rw [if_pos hany, List.map_map]
    congr 1
    apply List.map_congr_left
    intro e _
    simp only [Function.comp]
    by_cases hm : entryMatches k ps pe e = true
    · rw [if_pos hm, entryMatches_applyDefaults, if_pos hm]
      rfl
    · rw [if_neg hm, if_neg hm]
  · rw [if_neg h]
    dsimp only
    have hany : (t ++ [mkEntry k ps pe d]).any (entryMatches k ps pe) = true := by
      rw [List.any_append]
      simp [entryMatches_mkEntry]
    rw [if_pos hany, List.map_append]
    congr 2
    · conv_rhs => rw [← List.map_id t]
      apply List.map_congr_left
      intro e he
      have hne : ¬ entryMatches k ps pe e = true := by
        rw [List.any_eq_true] at h
        intro hc
        exact h ⟨e, he, hc⟩
      rw [if_neg hne]
      rfl
    · simp only [List.map_cons, List.map_nil, entryMatches_mkEntry, if_pos]
      rfl

/-- The upsert preserves "at most one row with the key". -/
theorem update_or_create_countP (t : List KPIEntry) (k : Nat) (ps pe : Date)
    (d : EntryDefaults) (h : t.countP (entryMatches k ps pe) ≤ 1) :
    (update_or_create t k ps pe d).1.countP (entryMatches k ps pe) ≤ 1 := by
  unfold update_or_create
  by_cases hany : t.any (entryMatches k ps pe)
  · rw [if_pos hany]
    dsimp only
    rw [List.countP_map]
    calc List.countP ((entryMatches k ps pe) ∘
          fun e => if entryMatches k ps pe e then applyDefaults e d else e) t
        = t.countP (entryMatches k ps pe) := by
          apply List.countP_congr
          intro e _
          simp only [Function.comp]
          constructor <;> intro hx
          · by_cases hm : entryMatches k ps pe e = true
            · exact hm
            · rw [if_neg hm] at hx; exact hx
          · rw [if_pos hx, entryMatches_applyDefaults]; exact hx
      _ ≤ 1 := h
  · rw [if_neg hany]
    dsimp only
    rw [List.countP_append]
    have h0 : t.countP (entryMatches k ps pe) = 0 := by
      rw [List.countP_eq_zero]
      intro e he hc
      rw [List.any_eq_true] at hany
      exact hany ⟨e, he, hc⟩
    simp [h0, List.countP_cons, entryMatches_mkEntry]

/-- The update branch does not change the table length (no insert). -/
theorem update_or_create_length (t : List KPIEntry) (k : Nat) (ps pe : Date)
    (d : EntryDefaults) (h : t.any (entryMatches k ps pe) = true) :
    (update_or_create t k ps pe d).1.length = t.length := by
  unfold update_or_create
  rw [if_pos h]
  exact List.length_map t _

/-! ### Period window lemmas -/

theorem predDate_jan1 (y : Int) : predDate ⟨y, 1, 1⟩ = ⟨y - 1, 12, 31⟩ := by
  unfold predDate
  norm_num

theorem predDate_first_of_month (y m : Int) (h : 1 < m) :
    predDate ⟨y, m, 1⟩ = ⟨y, m - 1, daysInMonth y (m - 1)⟩ := by
  unfold predDate
  dsimp only
  rw [if_neg (by norm_num), if_pos h]

theorem weekly_end_key {d : Date} (h : d.Valid) {w : Nat} (hw : w ≤ 6) :
    d.key ≤ (dateAddDays (dateSubDays d w) 6).key := by
  have h6 : (6 : Nat) = (6 - w) + w := by omega
  have hiter : succDate^[w] (predDate^[w] d) = d := dateAddDays_dateSubDays h w
  unfold dateAddDays dateSubDays
  rw [h6, Function.iterate_add_apply]
  unfold dateSubDays at hiter
  rw [hiter]
  exact dateAddDays_key_le h (6 - w)

/-- Period containment: the computed window contains the reference date. -/
theorem period_containment (p : String) (d : Date) (h : d.Valid) :
    (get_period_dates p d).1.key ≤ d.key ∧ d.key ≤ (get_period_dates p d).2.key := by
  unfold get_period_dates Date.replaceDay Date.replaceMonth Date.replaceMonthDay
    Date.replaceYearMonth
  dsimp only
  split_ifs with hdaily hweekly hmonthly hm12 hquarterly hq10
  all_goals try dsimp only
  -- daily
  · exact ⟨le_refl _, le_refl _⟩
  -- weekly
  · have hwk : d.weekday.toNat ≤ 6 := by
      have := weekday_lt_seven d
      have := weekday_nonneg d
      omega
    exact ⟨dateSubDays_key_le h _, weekly_end_key h hwk⟩
  -- monthly, December
  · obtain ⟨h1, h2, h3, h4⟩ := h
    rw [predDate_jan1]
    rw [hm12] at h4
    have h31 : daysInMonth d.year 12 = 31 := by unfold daysInMonth; norm_num
    unfold Date.key
    dsimp only
    omega
  -- monthly, other months
  · obtain ⟨h1, h2, h3, h4⟩ := h
    rw [predDate_first_of_month _ _ (by omega)]
    have hmm : d.month + 1 - 1 = d.month := by omega
    rw [hmm]
    unfold Date.key
    dsimp only
    omega
  -- quarterly, Q4
  · obtain ⟨h1, h2, h3, h4⟩ := h
    rw [predDate_jan1]
    have hdiv := Int.ediv_add_emod (d.month - 1) 3
    have hmod0 : 0 ≤ (d.month - 1) % 3 := Int.emod_nonneg _ (by norm_num)
    have hmod3 : (d.month - 1) % 3 < 3 := Int.emod_lt_of_pos _ (by norm_num)
    have h31 : daysInMonth d.year 12 = 31 := by unfold daysInMonth; norm_num
    have hb := daysInMonth_bounds d.year d.month
    unfold Date.key
    dsimp only
    omega
  -- quarterly, Q1-Q3
  · obtain ⟨h1, h2, h3, h4⟩ := h
    have hdiv := Int.ediv_add_emod (d.month - 1) 3
    have hmod0 : 0 ≤ (d.month - 1) % 3 := Int.emod_nonneg _ (by norm_num)
    have hmod3 : (d.month - 1) % 3 < 3 := Int.emod_lt_of_pos _ (by norm_num)
    have hq0 : 0 ≤ (d.month - 1) / 3 := Int.ediv_nonneg (by omega) (by norm_num)
    rw [predDate_first_of_month _ _ (by omega)]
    have hb := daysInMonth_bounds d.year ((d.month - 1) / 3 * 3 + 1 + 3 - 1)
    constructor
    · unfold Date.key
      dsimp only
      omega
    · by_cases hme : d.month = (d.month - 1) / 3 * 3 + 1 + 3 - 1
      · rw [← hme]
        unfold Date.key
        dsimp only
        omega
      · unfold Date.key
        dsimp only
        have hd31 : d.day ≤ 31 := by
          have := daysInMonth_bounds d.year d.month
          omega
        omega
  -- yearly
  · obtain ⟨h1, h2, h3, h4⟩ := h
    have hb := daysInMonth_bounds d.year d.month
    unfold Date.key
    dsimp only
    omega

/-! ### Claim theorems -/

/-- C4: for every period type and every structurally valid reference date
the period calculator returns (start, end) with
start ≤ reference_date ≤ end and start ≤ end, and it is deterministic:
identical inputs give identical outputs. -/
theorem C4_period_window_contains_reference_and_deterministic :
    (∀ (kpi_period : String) (reference_date : Date), reference_date.Valid →
      Date.le (get_period_dates kpi_period reference_date).1 reference_date ∧
      Date.le reference_date (get_period_dates kpi_period reference_date).2 ∧
      Date.le (get_period_dates kpi_period reference_date).1
              (get_period_dates kpi_period reference_date).2) ∧
    (∀ (p q : String) (d e : Date), p = q → d = e →
      get_period_dates p d = get_period_dates q e) := by
  constructor
  · intro p d hv
    obtain ⟨hs, he⟩ := period_containment p d hv
    exact ⟨hs, he, le_trans hs he⟩
  · intro p q d e hp hd
    rw [hp, hd]

/-- Witness for C4: the weekly window of Wednesday 2024-01-10. -/
theorem C4_witness :
    Date.Valid ⟨2024, 1, 10⟩ ∧
    Date.le (get_period_dates "weekly" ⟨2024, 1, 10⟩).1 ⟨2024, 1, 10⟩ :=
  ⟨by decide,
   (C4_period_window_contains_reference_and_deterministic.1 "weekly" ⟨2024, 1, 10⟩
      (by decide)).1⟩

/-- C10: for any period-type string outside
{daily, weekly, monthly, quarterly} — including invalid strings — the
period calculator does not fail but takes the final (yearly) branch,
returning January 1 to December 31 of the reference year. -/
theorem C10_unknown_period_type_falls_through_to_yearly :
    ∀ (kpi_period : String) (reference_date : Date),
      kpi_period ≠ "daily" → kpi_period ≠ "weekly" → kpi_period ≠ "monthly" →
      kpi_period ≠ "quarterly" →
      get_period_dates kpi_period reference_date =
        (⟨reference_date.year, 1, 1⟩, ⟨reference_date.year, 12, 31⟩) := by
  intro p d h1 h2 h3 h4
  unfold get_period_dates Date.replaceMonthDay
  rw [if_neg h1, if_neg h2, if_neg h3, if_neg h4]

/-- Witness for C10 at the unknown period string "biweekly". -/
theorem C10_witness :
    ("biweekly" ≠ "daily" ∧ "biweekly" ≠ "weekly" ∧ "biweekly" ≠ "monthly" ∧
     "biweekly" ≠ "quarterly") ∧
    get_period_dates "biweekly" ⟨2024, 7, 4⟩ = (⟨2024, 1, 1⟩, ⟨2024, 12, 31⟩) :=
  ⟨⟨by decide, by decide, by decide, by decide⟩,
   C10_unknown_period_type_falls_through_to_yearly "biweekly" ⟨2024, 7, 4⟩
     (by decide) (by decide) (by decide) (by decide)⟩

/-- C5 counterexample: for previous = 0 and current = −5 the code returns
+100, although the sign of the move away from zero is negative, so the
claimed sign rule would demand −100. -/
theorem C5_counterexample_negative_current_from_zero :
    calculate_percentage_change (-5) (some 0) = some 100 ∧
    ((100 : ℚ) = -100 → False) := by
  constructor
  · norm_num [calculate_percentage_change]
  · intro hc
    norm_num at hc

/-- C5 (amended): previous = 0 and current = 0 gives 0; previous = 0 and
current ≠ 0 gives +100 unconditionally (the sign does not follow the
direction of the move); previous ≠ 0 and current = 0 gives −100; otherwise
(current − previous) / previous × 100; previous absent gives no result. -/
theorem C5_percentage_change_zero_policy :
    (calculate_percentage_change 0 (some 0) = some 0) ∧
    (∀ c : ℚ, c ≠ 0 → calculate_percentage_change c (some 0) = some 100) ∧
    (∀ p : ℚ, p ≠ 0 → calculate_percentage_change 0 (some p) = some (-100)) ∧
    (∀ c p : ℚ, p ≠ 0 → c ≠ 0 →
      calculate_percentage_change c (some p) = some ((c - p) / p * 100)) ∧
    (∀ c : ℚ, calculate_percentage_change c none = none) := by
  refine ⟨by simp [calculate_percentage_change], ?_, ?_, ?_, ?_⟩
  · intro c hc
    simp [calculate_percentage_change, hc]
  · intro p hp
    simp [calculate_percentage_change, hp]
  · intro c p hp hc
    simp [calculate_percentage_change, hp, hc]
  · intro c
    simp [calculate_percentage_change]

/-- Witness for C5 at current = 5, previous = 0. -/
theorem C5_witness :
    ((5 : ℚ) ≠ 0) ∧ calculate_percentage_change 5 (some 0) = some 100 :=
  ⟨by norm_num, C5_percentage_change_zero_policy.2.1 5 (by norm_num)⟩

/-- C7 counterexample: invoking the manual aggregation path
(`process_kpi_aggregation_for_period`) against an aggregate-type KPI is a
silent no-op — it returns (unchanged table, None) instead of being
rejected. -/
theorem C7_counterexample_manual_path_on_aggregate_kpi_is_noop :
    fixtureAggregateKpi.source_type ≠ "manual" ∧
    process_kpi_aggregation_for_period [] [] fixtureAggregateKpi ⟨2024, 3, 15⟩
      "average" = ([], none) := by
  exact ⟨by decide, rfl⟩

/-- C7 (amended): the system path raises ValueError when the KPI is not an
aggregate-type KPI; the manual path, invoked against a KPI whose
source_type is not manual, silently returns no entry instead of being
rejected. -/
theorem C7_source_type_guards :
    (∀ (entries : List KPIEntry) (kpi : KPI) (ps pe : Date) (v : ℚ),
        kpi.source_type ≠ "aggregate" →
        process_system_aggregate_kpi entries kpi ps pe v =
          Except.error ("KPI " ++ kpi.name ++ " is not an aggregate type KPI")) ∧
    (∀ (reports : List KPIReport) (entries : List KPIEntry) (kpi : KPI)
        (rd : Date) (m : String),
        kpi.source_type ≠ "manual" →
        process_kpi_aggregation_for_period reports entries kpi rd m =
          (entries, none)) := by
  constructor
  · intro entries kpi ps pe v h
    unfold process_system_aggregate_kpi
    rw [if_pos h]
  · intro reports entries kpi rd m h
    unfold process_kpi_aggregation_for_period
    dsimp only
    rw [if_neg h]

/-- Witness for C7: the system path rejects the manual-type fixture KPI. -/
theorem C7_witness :
    (fixtureKpi.source_type ≠ "aggregate") ∧
    process_system_aggregate_kpi [] fixtureKpi ⟨2024, 3, 1⟩ ⟨2024, 3, 31⟩ 5 =
      Except.error ("KPI " ++ fixtureKpi.name ++ " is not an aggregate type KPI") :=
  ⟨by decide, C7_source_type_guards.1 [] fixtureKpi ⟨2024, 3, 1⟩ ⟨2024, 3, 31⟩ 5
    (by decide)⟩

/-- C3: submit succeeds only from draft, approve/reject only from
submitted; from any other state the model methods leave the whole row
unchanged and the HTTP endpoints answer 400 without touching the row — in
particular approving a still-draft report is rejected. -/
theorem C3_report_state_machine_legality :
    (∀ (r : KPIReport) (now : Nat),
        (r.status = "draft" → (r.submit now).status = "submitted") ∧
        (r.status ≠ "draft" → r.submit now = r)) ∧
    (∀ (r : KPIReport) (s n : String) (now : Nat),
        (r.status = "submitted" →
          (r.approve s n now).status = "approved" ∧
          (r.reject s n now).status = "rejected") ∧
        (r.status ≠ "submitted" → r.approve s n now = r ∧ r.reject s n now = r)) ∧
    (∀ (r : KPIReport) (u : String) (a : Option String) (n : String) (now : Nat),
        r.status = "draft" →
        KPIReportApproveView_post r true u a n now =
          (ApiResponse.badRequest "Only submitted reports can be approved/rejected.", r)) ∧
    (∀ (r : KPIReport) (u : String) (now : Nat),
        r.reported_by = u → r.status ≠ "draft" →
        KPIReportSubmitView_post r u now =
          (ApiResponse.badRequest "Only draft reports can be submitted.", r)) := by
  refine ⟨?_, ?_, ?_, ?_⟩
  · intro r now
    constructor
    · intro h
      simp [KPIReport.submit, h]
    · intro h
      simp [KPIReport.submit, h]
  · intro r s n now
    constructor
    · intro h
      constructor <;> simp [KPIReport.approve, KPIReport.reject, h]
    · intro h
      constructor <;> simp [KPIReport.approve, KPIReport.reject, h]
  · intro r u a n now h
    unfold KPIReportApproveView_post
    rw [if_neg (by simp), if_pos (by rw [h]; decide)]
  · intro r u now hu h
    unfold KPIReportSubmitView_post
    rw [if_neg (by simp [hu]), if_pos h]

/-- Witness for C3: the draft report with value 42 for
(2024-03-01, 2024-03-31); approving it directly is answered with 400 and
the row is untouched. -/
theorem C3_witness :
    fixtureDraftReport.status = "draft" ∧
    KPIReportApproveView_post fixtureDraftReport true "boss@crm.io"
        (some "approve") "" 0 =
      (ApiResponse.badRequest "Only submitted reports can be approved/rejected.",
       fixtureDraftReport) :=
  ⟨rfl, C3_report_state_machine_legality.2.2.1 fixtureDraftReport "boss@crm.io"
    (some "approve") "" 0 rfl⟩

/-- C1: the manual path selects exactly the approved reports whose period
bounds equal the requested bounds (rows with different bounds or other
statuses never influence the result); the produced entry value is the sum
for method sum, the report count for method count and the arithmetic mean
for any other method (the default, average); the metadata records the
count of selected reports; and the 10/20/30 average scenario yields value
20 with reports_count 3. -/
theorem C1_manual_aggregation_selection_and_methods :
    (∀ (reports : List KPIReport) (kpi : KPI) (ps pe : Date) (r : KPIReport),
        r ∈ approvedReportsFor reports kpi ps pe ↔
          (r ∈ reports ∧ r.kpi = kpi.id ∧ r.status = "approved" ∧
           r.period_start = ps ∧ r.period_end = pe)) ∧
    (∀ (reports : List KPIReport) (entries : List KPIEntry) (kpi : KPI)
        (ps pe : Date) (m : String) (r : KPIReport),
        (r.status ≠ "approved" ∨ r.period_start ≠ ps ∨ r.period_end ≠ pe) →
        create_kpi_entry_from_approved_reports (reports ++ [r]) entries kpi ps pe m =
          create_kpi_entry_from_approved_reports reports entries kpi ps pe m) ∧
    (∀ (reports : List KPIReport) (entries : List KPIEntry) (kpi : KPI)
        (ps pe : Date),
        approvedReportsFor reports kpi ps pe ≠ [] →
        ((create_kpi_entry_from_approved_reports reports entries kpi ps pe
            "sum").2.map (fun e => e.value) =
          some (sumValues (approvedReportsFor reports kpi ps pe))) ∧
        ((create_kpi_entry_from_approved_reports reports entries kpi ps pe
            "count").2.map (fun e => e.value) =
          some ((approvedReportsFor reports kpi ps pe).length : ℚ)) ∧
        (∀ m : String, m ≠ "sum" → m ≠ "count" →
          (create_kpi_entry_from_approved_reports reports entries kpi ps pe
              m).2.map (fun e => e.value) =
            some (sumValues (approvedReportsFor reports kpi ps pe) /
                  ((approvedReportsFor reports kpi ps pe).length : ℚ))) ∧
        (∀ m : String,
          (create_kpi_entry_from_approved_reports reports entries kpi ps pe
              m).2.map (fun e => e.metadata.reports_count) =
            some (some (approvedReportsFor reports kpi ps pe).length))) ∧
    (((create_kpi_entry_from_approved_reports fixtureReports [] fixtureKpi
        ⟨2024, 3, 1⟩ ⟨2024, 3, 31⟩ "average").2.map (fun e => e.value) =
       some 20) ∧
     ((create_kpi_entry_from_approved_reports fixtureReports [] fixtureKpi
        ⟨2024, 3, 1⟩ ⟨2024, 3, 31⟩ "average").2.map
          (fun e => e.metadata.reports_count) = some (some 3))) := by
  refine ⟨?_, ?_, ?_, ?_, ?_⟩
  · intro reports kpi ps pe r
    simp [approvedReportsFor, List.mem_filter]
  · intro reports entries kpi ps pe m r hr
    have hpred : (decide (r.kpi = kpi.id ∧ r.status = "approved" ∧
        r.period_start = ps ∧ r.period_end = pe)) = false := by
      simp only [decide_eq_false_iff_not]
      rintro ⟨-, hs, hps, hpe⟩
      rcases hr with h | h | h
      exacts [h hs, h hps, h hpe]
    have hsel : approvedReportsFor (reports ++ [r]) kpi ps pe =
        approvedReportsFor reports kpi ps pe := by
      unfold approvedReportsFor
      rw [List.filter_append]
      have hone : List.filter (fun r' => decide (r'.kpi = kpi.id ∧
          r'.status = "approved" ∧ r'.period_start = ps ∧ r'.period_end = pe))
          [r] = [] := by
        rw [List.filter_cons]
        rw [hpred]
        simp
      rw [hone, List.append_nil]
    unfold create_kpi_entry_from_approved_reports
    rw [hsel]
  · intro reports entries kpi ps pe hne
    refine ⟨?_, ?_, ?_, ?_⟩
    · rw [create_spec reports entries kpi ps pe "sum" hne]
      simp [mkEntry, aggDefaults, aggValue]
    · rw [create_spec reports entries kpi ps pe "count" hne]
      simp [mkEntry, aggDefaults, aggValue]
    · intro m h1 h2
      rw [create_spec reports entries kpi ps pe m hne]
      simp [mkEntry, aggDefaults, aggValue, h1, h2]
    · intro m
      rw [create_spec reports entries kpi ps pe m hne]
      simp [mkEntry, aggDefaults]
  · simp [create_kpi_entry_from_approved_reports, approvedReportsFor,
      fixtureReports, fixtureReport, fixtureKpi, sumValues, update_or_create,
      mkEntry, entryMatches]
    norm_num
  · simp [create_kpi_entry_from_approved_reports, approvedReportsFor,
      fixtureReports, fixtureReport, fixtureKpi, sumValues, update_or_create,
      mkEntry, entryMatches]

/-- Witness for C1 on the 10/20/30 fixture with method sum. -/
theorem C1_witness :
    (approvedReportsFor fixtureReports fixtureKpi ⟨2024, 3, 1⟩ ⟨2024, 3, 31⟩ ≠ []) ∧
    ((create_kpi_entry_from_approved_reports fixtureReports [] fixtureKpi
        ⟨2024, 3, 1⟩ ⟨2024, 3, 31⟩ "sum").2.map (fun e => e.value) =
      some (sumValues (approvedReportsFor fixtureReports fixtureKpi
        ⟨2024, 3, 1⟩ ⟨2024, 3, 31⟩))) :=
  ⟨by decide,
   (C1_manual_aggregation_selection_and_methods.2.2.1 fixtureReports [] fixtureKpi
     ⟨2024, 3, 1⟩ ⟨2024, 3, 31⟩ (by decide)).1⟩

/-- C2: re-running the manual aggregation for the same key against an
unchanged report set returns the identical entry (hence identical value and
metadata) and leaves the entries table unchanged; the upsert preserves
"at most one row per key" and performs no insert when a row for the key
already exists. -/
theorem C2_aggregation_idempotent_upsert :
    ∀ (reports : List KPIReport) (entries : List KPIEntry) (kpi : KPI)
      (ps pe : Date) (m : String),
      ((create_kpi_entry_from_approved_reports reports
          (create_kpi_entry_from_approved_reports reports entries kpi ps pe m).1
          kpi ps pe m).2 =
        (create_kpi_entry_from_approved_reports reports entries kpi ps pe m).2) ∧
      ((create_kpi_entry_from_approved_reports reports
          (create_kpi_entry_from_approved_reports reports entries kpi ps pe m).1
          kpi ps pe m).1 =
        (create_kpi_entry_from_approved_reports reports entries kpi ps pe m).1) ∧
      (entries.countP (entryMatches kpi.id ps pe) ≤ 1 →
        (create_kpi_entry_from_approved_reports reports entries kpi ps pe
          m).1.countP (entryMatches kpi.id ps pe) ≤ 1) ∧
      (entries.any (entryMatches kpi.id ps pe) = true →
        (create_kpi_entry_from_approved_reports reports entries kpi ps pe
          m).1.length = entries.length) := by
  intro reports entries kpi ps pe m
  by_cases hne : approvedReportsFor reports kpi ps pe = []
  · rw [create_empty reports entries kpi ps pe m hne]
    dsimp only
    rw [create_empty reports entries kpi ps pe m hne]
    exact ⟨rfl, rfl, fun h => h, fun _ => rfl⟩
  · rw [create_spec reports entries kpi ps pe m hne]
    dsimp only
    rw [create_spec reports _ kpi ps pe m hne]
    dsimp only
    refine ⟨rfl, ?_, ?_, ?_⟩
    · rw [update_or_create_idem]
    · intro h
      exact update_or_create_countP _ _ _ _ _ h
    · intro h
      exact update_or_create_length _ _ _ _ _ h

/-- Witness for C2 on the 10/20/30 fixture over an empty entries table. -/
theorem C2_witness :
    (([] : List KPIEntry).countP
        (entryMatches fixtureKpi.id ⟨2024, 3, 1⟩ ⟨2024, 3, 31⟩) ≤ 1) ∧
    ((create_kpi_entry_from_approved_reports fixtureReports [] fixtureKpi
        ⟨2024, 3, 1⟩ ⟨2024, 3, 31⟩ "average").1.countP
        (entryMatches fixtureKpi.id ⟨2024, 3, 1⟩ ⟨2024, 3, 31⟩) ≤ 1) :=
  ⟨by decide,
   (C2_aggregation_idempotent_upsert fixtureReports [] fixtureKpi
     ⟨2024, 3, 1⟩ ⟨2024, 3, 31⟩ "average").2.2.1 (by decide)⟩

/-- C8: with no approved reports for the requested key the manual path
produces no entry and leaves the entries table unchanged (a no-op, no
error), and the approval-trigger task reports success = false with the
message "No approved reports found" instead of an error. -/
theorem C8_no_approved_reports_is_normal_noop :
    ∀ (kpis : List KPI) (reports : List KPIReport) (entries : List KPIEntry)
      (kpi : KPI) (ps pe : Date) (m : String),
      approvedReportsFor reports kpi ps pe = [] →
      (create_kpi_entry_from_approved_reports reports entries kpi ps pe m =
        (entries, none)) ∧
      (kpis.find? (fun k => k.id == kpi.id) = some kpi →
        trigger_kpi_aggregation_after_approval kpis reports entries kpi.id ps pe m =
          (entries, { success := false, value := none,
                      message := some "No approved reports found",
                      error := none })) := by
  intro kpis reports entries kpi ps pe m he
  have hc := create_empty reports entries kpi ps pe m he
  refine ⟨hc, ?_⟩
  intro hf
  unfold trigger_kpi_aggregation_after_approval
  rw [hf]
  dsimp only
  rw [hc]

/-- Witness for C8: empty report table, single-KPI directory. -/
theorem C8_witness :
    (approvedReportsFor [] fixtureKpi ⟨2024, 3, 1⟩ ⟨2024, 3, 31⟩ = []) ∧
    trigger_kpi_aggregation_after_approval [fixtureKpi] [] [] fixtureKpi.id
        ⟨2024, 3, 1⟩ ⟨2024, 3, 31⟩ "average" =
      ([], { success := false, value := none,
             message := some "No approved reports found", error := none }) :=
  ⟨rfl,
   (C8_no_approved_reports_is_normal_noop [fixtureKpi] [] [] fixtureKpi
     ⟨2024, 3, 1⟩ ⟨2024, 3, 31⟩ "average" rfl).2 rfl⟩

theorem ratFloor_intCast (n : Int) : ratFloor ((n : ℚ)) = n := by
  unfold ratFloor
  exact Int.floor_intCast n

theorem roundHalfToEven_intCast (n : Int) : roundHalfToEven ((n : ℚ)) = n := by
  unfold roundHalfToEven
  rw [ratFloor_intCast]
  norm_num

theorem pyRound2_intCast (n : Int) : pyRound2 ((n : ℚ)) = n := by
  unfold pyRound2
  have h : (n : ℚ) * 100 = (((n * 100 : ℤ) : ℚ)) := by push_cast; ring
  rw [h, roundHalfToEven_intCast]
  push_cast
  field_simp


/-- C6: trend analysis annotates entries in period order with the change
from the immediate predecessor (null for the first), truncates to the
trailing periods_count entries when periods_count > 0, computes statistics
over the truncated slice only with overall change = percentage_change(last,
first) and direction from its sign; history [10, 0, 5] gives changes
[null, −100, +100], overall −50 and direction decreasing. -/
theorem C6_trend_analysis_slice_statistics :
    (∀ (entries : List KPIEntry) (pc : Int),
        (get_kpi_trend_analysis entries pc).statistics =
          calculate_trend_statistics ((get_kpi_trend_analysis entries pc).trends)) ∧
    (∀ (entries : List KPIEntry) (pc : Int), 0 < pc →
        (get_kpi_trend_analysis entries pc).trends =
          (buildTrendData (orderByPeriodStart entries) none).drop
            ((buildTrendData (orderByPeriodStart entries) none).length - pc.toNat)) ∧
    (∀ (e : KPIEntry) (rest : List KPIEntry),
        ((buildTrendData (e :: rest) none).map
            (fun i => i.percentage_change)).head? = some none) ∧
    (∀ (t : TrendItem) (ts : List TrendItem),
        (calculate_trend_statistics (t :: ts)).overall_change_percentage =
          (calculate_percentage_change
            (((t :: ts).map (fun item => item.value)).getLastD 0)
            (some t.value)).map pyRound2 ∧
        (calculate_trend_statistics (t :: ts)).trend_direction =
          (calculate_percentage_change
            (((t :: ts).map (fun item => item.value)).getLastD 0)
            (some t.value)).map
            (fun c => if 0 < c then "increasing"
                      else if c < 0 then "decreasing" else "stable")) ∧
    (((get_kpi_trend_analysis fixtureTrendEntries 12).trends.map
        (fun i => i.percentage_change) = [none, some (-100), some 100]) ∧
     ((get_kpi_trend_analysis fixtureTrendEntries 12).statistics.overall_change_percentage =
        some (-50)) ∧
     ((get_kpi_trend_analysis fixtureTrendEntries 12).statistics.trend_direction =
        some "decreasing")) := by
  have hm100 : pyRound2 (-100) = -100 := by
    rw [show ((-100 : ℚ)) = (((-100 : ℤ) : ℚ)) by norm_num, pyRound2_intCast]
  have h100 : pyRound2 100 = 100 := by
    rw [show ((100 : ℚ)) = (((100 : ℤ) : ℚ)) by norm_num, pyRound2_intCast]
  have hm50 : pyRound2 (-50) = -50 := by
    rw [show ((-50 : ℚ)) = (((-50 : ℤ) : ℚ)) by norm_num, pyRound2_intCast]
  refine ⟨?_, ?_, ?_, ?_, ?_⟩
  · intro entries pc
    rfl
  · intro entries pc h
    unfold get_kpi_trend_analysis
    dsimp only
    rw [if_pos h]
  · intro e rest
    simp [buildTrendData, calculate_percentage_change]
  · intro t ts
    constructor
    · rfl
    · have hopt : ∀ (o : Option ℚ),
          (match o with
           | none => none
           | some c => if 0 < c then some "increasing"
                       else if c < 0 then some "decreasing" else some "stable") =
            o.map (fun c => if 0 < c then "increasing"
                            else if c < 0 then "decreasing" else "stable") := by
        rintro (_ | c)
        · rfl
        · dsimp only [Option.map]
          split_ifs <;> rfl
      exact hopt _
  · refine ⟨?_, ?_, ?_⟩
    · norm_num [get_kpi_trend_analysis, orderByPeriodStart, List.insertionSort,
        List.orderedInsert, fixtureTrendEntries, fixtureEntry, buildTrendData,
        calculate_percentage_change, calculate_trend_statistics, Date.key,
        hm100, h100]
    · norm_num [get_kpi_trend_analysis, orderByPeriodStart, List.insertionSort,
        List.orderedInsert, fixtureTrendEntries, fixtureEntry, buildTrendData,
        calculate_percentage_change, calculate_trend_statistics, Date.key,
        hm100, h100, hm50]
    · norm_num [get_kpi_trend_analysis, orderByPeriodStart, List.insertionSort,
        List.orderedInsert, fixtureTrendEntries, fixtureEntry, buildTrendData,
        calculate_percentage_change, calculate_trend_statistics, Date.key]

/-- Witness for C6: the truncation equation at periods_count = 2 on the
fixture history. -/
theorem C6_witness :
    ((0 : Int) < 2) ∧
    (get_kpi_trend_analysis fixtureTrendEntries 2).trends =
      (buildTrendData (orderByPeriodStart fixtureTrendEntries) none).drop
        ((buildTrendData (orderByPeriodStart fixtureTrendEntries) none).length -
          (2 : Int).toNat) :=
  ⟨by norm_num,
   C6_trend_analysis_slice_statistics.2.1 fixtureTrendEntries 2 (by norm_num)⟩

/-- One batch-loop iteration under an exception: the KPI is recorded in
errors with its id and name, counted as skipped, and the entries table is
untouched. -/
theorem processOneKpiStep_fault (reports : List KPIReport) (rd : Date)
    (m : String) (exc : KPI → Option String) (st : List KPIEntry × BatchSummary)
    (k : KPI) (e : String) (h : exc k = some e) :
    processOneKpiStep reports rd m exc st k =
      (st.1, { st.2 with errors := st.2.errors ++ [⟨k.id, k.name, e⟩],
                         skipped := st.2.skipped + 1 }) := by
  unfold processOneKpiStep
  dsimp only
  rw [h]

/-- Numeric bookkeeping of one batch-loop iteration. -/
theorem processOneKpiStep_counts (reports : List KPIReport) (rd : Date)
    (m : String) (exc : KPI → Option String) (st : List KPIEntry × BatchSummary)
    (k : KPI) :
    ((processOneKpiStep reports rd m exc st k).2.processed +
      (processOneKpiStep reports rd m exc st k).2.skipped =
      st.2.processed + st.2.skipped + 1) ∧
    ((processOneKpiStep reports rd m exc st k).2.created +
      (processOneKpiStep reports rd m exc st k).2.updated + st.2.processed =
      (processOneKpiStep reports rd m exc st k).2.processed +
      st.2.created + st.2.updated) ∧
    ((processOneKpiStep reports rd m exc st k).2.errors =
      st.2.errors ++
        ((exc k).map (fun e => (⟨k.id, k.name, e⟩ : BatchError))).toList) ∧
    (st.2.skipped +
      ((exc k).map (fun e => (⟨k.id, k.name, e⟩ : BatchError))).toList.length ≤
      (processOneKpiStep reports rd m exc st k).2.skipped) := by
  unfold processOneKpiStep
  dsimp only
  rcases hexc : exc k with _ | e
  · dsimp only
    rcases hr : (create_kpi_entry_from_approved_reports reports st.1 k
        (get_period_dates k.period rd).1 (get_period_dates k.period rd).2 m).2
      with _ | v
    · dsimp only
      refine ⟨by omega, by omega, by simp, by simp⟩
    · dsimp only
      split_ifs <;> (dsimp only; exact ⟨by omega, by omega, by simp, by simp⟩)
  · dsimp only
    refine ⟨by omega, by omega, by simp, by simp⟩

/-- Summary bookkeeping of the whole batch fold, for any starting state. -/
theorem batch_foldl_summary (reports : List KPIReport) (rd : Date) (m : String)
    (exc : KPI → Option String) (l : List KPI) :
    ∀ st : List KPIEntry × BatchSummary,
      ((l.foldl (processOneKpiStep reports rd m exc) st).2.processed +
        (l.foldl (processOneKpiStep reports rd m exc) st).2.skipped =
        st.2.processed + st.2.skipped + l.length) ∧
      ((l.foldl (processOneKpiStep reports rd m exc) st).2.created +
        (l.foldl (processOneKpiStep reports rd m exc) st).2.updated +
        st.2.processed =
        (l.foldl (processOneKpiStep reports rd m exc) st).2.processed +
        st.2.created + st.2.updated) ∧
      ((l.foldl (processOneKpiStep reports rd m exc) st).2.errors =
        st.2.errors ++ l.filterMap (fun k =>
          (exc k).map (fun e => (⟨k.id, k.name, e⟩ : BatchError)))) ∧
      ((l.foldl (processOneKpiStep reports rd m exc) st).2.errors.length +
        st.2.skipped ≤
        st.2.errors.length +
        (l.foldl (processOneKpiStep reports rd m exc) st).2.skipped) := by
  induction l with
  | nil =>
      intro st
      refine ⟨by simp, by simp; omega, by simp, by simp⟩
  | cons k rest ih =>
      intro st
      rw [List.foldl_cons]
      obtain ⟨s1, s2, s3, s4⟩ := processOneKpiStep_counts reports rd m exc st k
      obtain ⟨i1, i2, i3, i4⟩ := ih (processOneKpiStep reports rd m exc st k)
      have hl : (k :: rest).length = rest.length + 1 := rfl
      have htl : ((exc k).map (fun e => (⟨k.id, k.name, e⟩ : BatchError))).toList ++
          rest.filterMap (fun k =>
            (exc k).map (fun e => (⟨k.id, k.name, e⟩ : BatchError))) =
          (k :: rest).filterMap (fun k =>
            (exc k).map (fun e => (⟨k.id, k.name, e⟩ : BatchError))) := by
        rcases hf : exc k with _ | e <;> simp [List.filterMap_cons, hf]
      have hlen : (processOneKpiStep reports rd m exc st k).2.errors.length =
          st.2.errors.length +
          ((exc k).map (fun e => (⟨k.id, k.name, e⟩ : BatchError))).toList.length := by
        rw [s3, List.length_append]
      refine ⟨by omega, by omega, ?_, by omega⟩
      rw [i3, s3, List.append_assoc, htl]

/-- C9: the batch driver accounts for every active manual-source KPI
(processed + skipped equals their number, created + updated equals
processed, and the error list is exactly the faulted KPIs in order, each
recorded with its id and name, with errors never exceeding skipped); a
faulting KPI only appends its error record and a skip — the entries table
and every other KPI's contribution are untouched — while a KPI that
produces an entry increments processed together with exactly one of
created (no prior entry for the period) or updated (prior entry existed). -/
theorem C9_batch_processes_all_and_isolates_errors :
    (∀ (kpis : List KPI) (reports : List KPIReport) (entries : List KPIEntry)
        (rd : Date) (m : String) (exc : KPI → Option String),
        ((process_all_kpis_for_period kpis reports entries rd m exc).2.processed +
          (process_all_kpis_for_period kpis reports entries rd m exc).2.skipped =
          (kpis.filter (fun k => k.is_active && k.source_type == "manual")).length) ∧
        ((process_all_kpis_for_period kpis reports entries rd m exc).2.created +
          (process_all_kpis_for_period kpis reports entries rd m exc).2.updated =
          (process_all_kpis_for_period kpis reports entries rd m exc).2.processed) ∧
        ((process_all_kpis_for_period kpis reports entries rd m exc).2.errors =
          (kpis.filter (fun k => k.is_active && k.source_type == "manual")).filterMap
            (fun k => (exc k).map (fun e => (⟨k.id, k.name, e⟩ : BatchError)))) ∧
        ((process_all_kpis_for_period kpis reports entries rd m exc).2.errors.length ≤
          (process_all_kpis_for_period kpis reports entries rd m exc).2.skipped)) ∧
    (∀ (reports : List KPIReport) (rd : Date) (m : String)
        (exc : KPI → Option String) (st : List KPIEntry × BatchSummary)
        (k : KPI) (e : String), exc k = some e →
        processOneKpiStep reports rd m exc st k =
          (st.1, { st.2 with errors := st.2.errors ++ [⟨k.id, k.name, e⟩],
                             skipped := st.2.skipped + 1 })) ∧
    (∀ (reports : List KPIReport) (rd : Date) (m : String)
        (exc : KPI → Option String) (st : List KPIEntry × BatchSummary)
        (k : KPI) (v : KPIEntry), exc k = none →
        (create_kpi_entry_from_approved_reports reports st.1 k
            (get_period_dates k.period rd).1 (get_period_dates k.period rd).2 m).2 =
          some v →
        ((st.1.any (entryMatches k.id (get_period_dates k.period rd).1
              (get_period_dates k.period rd).2) = true →
          (processOneKpiStep reports rd m exc st k).2 =
            { st.2 with processed := st.2.processed + 1,
                        updated := st.2.updated + 1 }) ∧
         (st.1.any (entryMatches k.id (get_period_dates k.period rd).1
              (get_period_dates k.period rd).2) = false →
          (processOneKpiStep reports rd m exc st k).2 =
            { st.2 with processed := st.2.processed + 1,
                        created := st.2.created + 1 }))) := by
  refine ⟨?_, ?_, ?_⟩
  · intro kpis reports entries rd m exc
    unfold process_all_kpis_for_period
    dsimp only
    obtain ⟨f1, f2, f3, f4⟩ := batch_foldl_summary reports rd m exc
      (kpis.filter (fun k => k.is_active && k.source_type == "manual"))
      (entries, ⟨0, 0, 0, 0, []⟩)
    dsimp only at f1 f2 f3 f4
    refine ⟨by omega, by omega, by simpa using f3, ?_⟩
    have : (([] : List BatchError)).length = 0 := rfl
    omega
  · intro reports rd m exc st k e h
    exact processOneKpiStep_fault reports rd m exc st k e h
  · intro reports rd m exc st k v hexc hr
    constructor <;> intro hany
    · unfold processOneKpiStep
      dsimp only
      rw [hexc]
      dsimp only
      rw [hr]
      dsimp only
      rw [if_pos hany]
    · unfold processOneKpiStep
      dsimp only
      rw [hexc]
      dsimp only
      rw [hr]
      dsimp only
      rw [if_neg (by rw [hany]; exact fun hc => Bool.false_ne_true hc)]

/-- Witness for C9: a single-KPI batch step whose processing raises. -/
theorem C9_witness :
    ((fun _ : KPI => some "boom") fixtureKpi = some "boom") ∧
    processOneKpiStep [] ⟨2024, 3, 15⟩ "average" (fun _ => some "boom")
        ([], ⟨0, 0, 0, 0, []⟩) fixtureKpi =
      (([] : List KPIEntry),
       ⟨0, 0, 0, 1, [⟨fixtureKpi.id, fixtureKpi.name, "boom"⟩]⟩) :=
  ⟨rfl,
   C9_batch_processes_all_and_isolates_errors.2.1 [] ⟨2024, 3, 15⟩ "average"
     (fun _ => some "boom") ([], ⟨0, 0, 0, 0, []⟩) fixtureKpi "boom" rfl⟩

end CrmCore
